import Mathlib

/-!
Shallow embedding of `models/responder.py` from the Vision-RAG repository.

The single entry point of that file is `generate_response(images, query,
session_id, resized_height, resized_width, model_choice)`.  It dispatches on
`model_choice` to one of six backend adapter branches (qwen, gemini, gpt4,
llama-vision, pixtral, molmo), wraps everything in an outer try/except that
converts any exception into the fixed string
"An error occurred while generating the response.", and returns a value to the
caller.

External collaborators (the filesystem, PIL, the model loader, the remote
APIs and the local inference pipelines) are modelled by an `Env` of oracles;
a Python exception is modelled by its message string (`Exn`), a fallible call
by `Except Exn`.  The observable side effects of a call (load_model lookups,
existence checks, image opens, binary file reads, inference invocations,
image closes) are collected in an `Effects` record, and the mutable state of
the provider's cached handles in `ProviderState`.  The Python return value is
an `Option String`: `some s` is the string `s`, `none` is Python `None`
(reachable because the OpenAI SDK types `message.content` as `Optional[str]`).
-/

namespace VisionRAG

/-- A Python exception, abstracted to its message string. -/
abbrev Exn := String

/-- A Python return value of `generate_response`: a string, or Python None. -/
abbrev Ret := Option String

/-- `os.path.join a b` for the relative second components used in
`responder.py` (every call site joins `'static'` with a relative image
identifier). -/
def ospathJoin (a b : String) : String := a ++ "/" ++ b

/-- One element of the qwen `content` list built at responder.py lines 37-49:
an image part (a dict with the joined path and the two resize hints) or the
text part. -/
inductive QwenPart
  | image (path : String) (resized_height resized_width : Nat)
  | text (t : String)
  deriving Repr, DecidableEq

/-- One element of the gemini `content` list built at lines 76-84: the query
string, or a decoded PIL image (identified here by its full path). -/
inductive GeminiPart
  | text (t : String)
  | image (path : String)
  deriving Repr, DecidableEq

/-- One element of the gpt4 `content` list built at lines 111-122: the text
part, or an image_url part holding a base64 data URI. -/
inductive Gpt4Part
  | text (t : String)
  | image_url (url : String)
  deriving Repr, DecidableEq

/-- One element of the pixtral message content built at lines 187-195. -/
inductive PixtralPart
  | text (t : String)
  | image_url (url : String)
  deriving Repr, DecidableEq

/-- One invocation of an underlying inference object or remote client,
tagged with the backend-native request it was given. -/
inductive Invocation
  | qwen (content : List QwenPart)
  | gemini (content : List GeminiPart)
  | gpt4 (content : List Gpt4Part)
  | llama (imagePath : String) (query : String)
  | pixtral (content : List PixtralPart)
  | molmo (imagePaths : List String) (query : String)
  deriving Repr, DecidableEq

/-- The observable side effects of one `generate_response` call:
calls to `load_model`, `os.path.exists` checks, `Image.open` attempts,
paths whose image was successfully opened, binary file reads
(`encode_image` / `image_to_data_url`), inference invocations, and
`img.close()` calls. -/
structure Effects where
  loadModelCalls : List String := []
  existsChecks : List String := []
  opens : List String := []
  openedOk : List String := []
  reads : List String := []
  invocations : List Invocation := []
  closes : List String := []
  deriving Repr, DecidableEq

/-- Numeric precision of the cached molmo model's floating point weights. -/
inductive Precision
  | full
  | half
  deriving Repr, DecidableEq

/-- The mutable state of the Model Provider's cached handles that
`responder.py` can touch.  The only handle mutation in the file is
`model = model.half()` on the molmo branch (line 202): torch's
`Module.half()` casts the module's parameters in place and returns `self`,
so it changes the cached model shared across calls. -/
structure ProviderState where
  molmoPrecision : Precision
  deriving Repr, DecidableEq

/-- The external world: filesystem, PIL, loader, remote APIs and local
inference pipelines, each as an oracle.  A `.error e` models the call raising
a Python exception with message `e`. -/
structure Env where
  /-- `os.path.exists` on a full path. -/
  pathExists : String → Bool
  /-- `Image.open` (with optional `.convert('RGB')`): `some e` means the call
  raises `e`, `none` means it succeeds. -/
  imageOpenErr : String → Option Exn
  /-- The body of `encode_image` / `image_to_data_url`'s read: open the file
  in binary mode, read it and base64-encode; the resulting base64 string, or
  the exception raised. -/
  fileB64 : String → Except Exn String
  /-- `load_model(key)`: succeeds or raises.  The handles themselves are
  represented by `ProviderState` and the pipeline oracles below. -/
  loadModelResult : String → Except Exn Unit
  /-- The `OpenAI(api_key=...)` constructor at line 108: raises when no API
  key is available. -/
  openaiClientInit : Except Exn Unit
  /-- The qwen steps before the model call (`apply_chat_template` and
  `process_vision_info`, lines 51-52); `process_vision_info` opens the image
  files referenced by the messages and raises when one is unreadable. -/
  qwenVision : List QwenPart → Except Exn Unit
  /-- The qwen processor + `model.generate` + `batch_decode` pipeline
  (lines 53-67): the decoded `output_text` list. -/
  qwenGenerate : List QwenPart → Except Exn (List String)
  /-- `model.generate_content(content)` followed by the `.text` accessor on
  the gemini branch (lines 93-95): the text field (possibly empty), or a
  raise from either step. -/
  geminiGenerate : List GeminiPart → Except Exn String
  /-- `client.chat.completions.create(...)` followed by
  `.choices[0].message.content` on the gpt4 branch (lines 129-140): the
  content, which the OpenAI SDK types as `Optional[str]`, or a raise. -/
  gpt4Create : List Gpt4Part → Except Exn (Option String)
  /-- The llama-vision template + processor + `model.generate` + decode
  pipeline (lines 165-170) on the first image's path and the query. -/
  llamaGenerate : String → String → Except Exn String
  /-- `model.chat(messages, ...)` followed by `outputs[0].outputs[0].text`
  on the pixtral branch (lines 197-198). -/
  pixtralChat : List PixtralPart → Except Exn String
  /-- The molmo `processor.process` + `generate_from_batch` + decode pipeline
  (lines 220-244) on the opened image paths and the query. -/
  molmoGenerate : List String → String → Except Exn String

/-- The qwen `messages` content built at lines 33-49: the resize hints are
first rounded down to multiples of 28, then one image part per identifier
(joined under `static`) is emitted, followed by the text part. -/
def qwenContent (images : List String) (query : String) (rh rw : Nat) :
    List QwenPart :=
  let rh' := rh / 28 * 28
  let rw' := rw / 28 * 28
  images.map (fun image => QwenPart.image (ospathJoin "static" image) rh' rw')
    ++ [QwenPart.text query]

/-- The qwen branch, responder.py lines 29-69.  No image existence checks are
made; the whole messages list (possibly with zero image parts) is handed to
the pipeline, and `output_text[0]` raises IndexError on an empty decode
list. -/
def qwenBranch (env : Env) (images : List String) (query : String)
    (rh rw : Nat) : Except Exn Ret × Effects :=
  match env.loadModelResult "qwen" with
  | .error e => (.error e, { loadModelCalls := ["qwen"] })
  | .ok _ =>
    match env.qwenVision (qwenContent images query rh rw) with
    | .error e => (.error e, { loadModelCalls := ["qwen"] })
    | .ok _ =>
      match env.qwenGenerate (qwenContent images query rh rw) with
      | .error e =>
        (.error e,
         { loadModelCalls := ["qwen"],
           invocations := [.qwen (qwenContent images query rh rw)] })
      | .ok [] =>
        (.error "list index out of range",
         { loadModelCalls := ["qwen"],
           invocations := [.qwen (qwenContent images query rh rw)] })
      | .ok (o :: _) =>
        (.ok (some o),
         { loadModelCalls := ["qwen"],
           invocations := [.qwen (qwenContent images query rh rw)] })

/-- The gemini `content` list built at lines 76-88: the query text first,
then one decoded image per identifier whose joined path exists and whose
`Image.open` succeeds (open failures are logged and skipped). -/
def geminiContent (env : Env) (images : List String) (query : String) :
    List GeminiPart :=
  GeminiPart.text query ::
    images.filterMap (fun img_path =>
      if env.pathExists (ospathJoin "static" img_path) then
        match env.imageOpenErr (ospathJoin "static" img_path) with
        | none => some (GeminiPart.image (ospathJoin "static" img_path))
        | some _ => none
      else none)

/-- The gemini branch, lines 71-104.  `load_model` runs outside the inner
try; the inner try covers content building, the sentinel check
(`len(content) == 1`), the remote call, and the empty-text check, and its
except clause converts any raise into a descriptive string. -/
def geminiBranch (env : Env) (images : List String) (query : String) :
    Except Exn Ret × Effects :=
  match env.loadModelResult "gemini" with
  | .error e => (.error e, { loadModelCalls := ["gemini"] })
  | .ok _ =>
    let fulls := images.map (ospathJoin "static")
    let eff : Effects :=
      { loadModelCalls := ["gemini"], existsChecks := fulls,
        opens := fulls.filter env.pathExists,
        openedOk := (fulls.filter env.pathExists).filter
          (fun p => env.imageOpenErr p = none) }
    if (geminiContent env images query).length = 1 then
      (.ok (some "No images could be loaded for analysis."), eff)
    else
      match env.geminiGenerate (geminiContent env images query) with
      | .error e =>
        (.ok (some ("An error occurred while processing the images: " ++ e)),
         { eff with invocations := [.gemini (geminiContent env images query)] })
      | .ok t =>
        if t = "" then
          (.ok (some "The Gemini model did not generate any text response."),
           { eff with invocations := [.gemini (geminiContent env images query)] })
        else
          (.ok (some t),
           { eff with invocations := [.gemini (geminiContent env images query)] })

/-- The per-image loop of the gpt4 branch, lines 113-124: an existence check
per identifier, then a base64 read for the ones that exist; a read failure
raises out of the loop.  Returns the image parts (or the raise), the
existence checks made, and the reads made. -/
def gpt4Loop (env : Env) : List String →
    Except Exn (List Gpt4Part) × List String × List String
  | [] => (.ok [], [], [])
  | img_path :: rest =>
    if env.pathExists (ospathJoin "static" img_path) then
      match env.fileB64 (ospathJoin "static" img_path) with
      | .error e =>
        (.error e, [ospathJoin "static" img_path], [ospathJoin "static" img_path])
      | .ok b64 =>
        match gpt4Loop env rest with
        | (res, exs, rds) =>
          ((res.map (fun parts =>
              Gpt4Part.image_url ("data:image/jpeg;base64," ++ b64) :: parts)),
           ospathJoin "static" img_path :: exs,
           ospathJoin "static" img_path :: rds)
    else
      match gpt4Loop env rest with
      | (res, exs, rds) => (res, ospathJoin "static" img_path :: exs, rds)

/-- The gpt4 branch, lines 106-146.  The client constructor runs outside the
inner try (a raise there reaches the outer boundary); the inner try covers
the loop, the sentinel check and the remote call, and its except clause
converts any raise into a descriptive string.  The message content is
returned exactly as the SDK delivers it (`Optional[str]`). -/
def gpt4Branch (env : Env) (images : List String) (query : String) :
    Except Exn Ret × Effects :=
  match env.openaiClientInit with
  | .error e => (.error e, {})
  | .ok _ =>
    match gpt4Loop env images with
    | (.error e, exs, rds) =>
      (.ok (some ("An error occurred while processing the images: " ++ e)),
       { existsChecks := exs, reads := rds })
    | (.ok parts, exs, rds) =>
      if (Gpt4Part.text query :: parts).length = 1 then
        (.ok (some "No images could be loaded for analysis."),
         { existsChecks := exs, reads := rds })
      else
        match env.gpt4Create (Gpt4Part.text query :: parts) with
        | .error e =>
          (.ok (some ("An error occurred while processing the images: " ++ e)),
           { existsChecks := exs, reads := rds,
             invocations := [.gpt4 (Gpt4Part.text query :: parts)] })
        | .ok c =>
          (.ok c,
           { existsChecks := exs, reads := rds,
             invocations := [.gpt4 (Gpt4Part.text query :: parts)] })

/-- The llama-vision branch, lines 148-171.  All identifiers are joined (a
pure string operation), then only `image_paths[0]` is opened and passed on;
indexing an empty list raises IndexError to the outer boundary, as does an
open failure or a pipeline failure. -/
def llamaBranch (env : Env) (images : List String) (query : String) :
    Except Exn Ret × Effects :=
  match env.loadModelResult "llama-vision" with
  | .error e => (.error e, { loadModelCalls := ["llama-vision"] })
  | .ok _ =>
    match images.map (ospathJoin "static") with
    | [] => (.error "list index out of range", { loadModelCalls := ["llama-vision"] })
    | image_path :: _ =>
      match env.imageOpenErr image_path with
      | some e =>
        (.error e, { loadModelCalls := ["llama-vision"], opens := [image_path] })
      | none =>
        match env.llamaGenerate image_path query with
        | .error e =>
          (.error e,
           { loadModelCalls := ["llama-vision"], opens := [image_path],
             openedOk := [image_path],
             invocations := [.llama image_path query] })
        | .ok response =>
          (.ok (some response),
           { loadModelCalls := ["llama-vision"], opens := [image_path],
             openedOk := [image_path],
             invocations := [.llama image_path query] })

/-- `os.path.splitext(path)[1][1:]`: the extension of the final path
component without its dot, empty when the component has none (leading dots
of the component are not extension separators). -/
def extOf (path : String) : String :=
  let base := (path.splitOn "/").getLastD path
  let pieces := (base.dropWhile (fun c => c = '.')).splitOn "."
  if pieces.length ≤ 1 then "" else pieces.getLastD ""

/-- The pixtral branch, lines 173-198.  Only the first image (`i < 1`) is
encoded via `image_to_data_url` (a binary read with no existence check; a
raise reaches the outer boundary — this branch has no inner try). -/
def pixtralBranch (env : Env) (images : List String) (query : String) :
    Except Exn Ret × Effects :=
  match env.loadModelResult "pixtral" with
  | .error e => (.error e, { loadModelCalls := ["pixtral"] })
  | .ok _ =>
    match images with
    | [] =>
      match env.pixtralChat [PixtralPart.text query] with
      | .error e =>
        (.error e,
         { loadModelCalls := ["pixtral"],
           invocations := [.pixtral [PixtralPart.text query]] })
      | .ok t =>
        (.ok (some t),
         { loadModelCalls := ["pixtral"],
           invocations := [.pixtral [PixtralPart.text query]] })
    | img_path :: _ =>
      match env.fileB64 (ospathJoin "static" img_path) with
      | .error e =>
        (.error e,
         { loadModelCalls := ["pixtral"], reads := [ospathJoin "static" img_path] })
      | .ok b64 =>
        match env.pixtralChat
            [PixtralPart.text query,
             PixtralPart.image_url
               ("data:image/" ++ extOf (ospathJoin "static" img_path)
                 ++ ";base64," ++ b64)] with
        | .error e =>
          (.error e,
           { loadModelCalls := ["pixtral"],
             reads := [ospathJoin "static" img_path],
             invocations := [.pixtral
               [PixtralPart.text query,
                PixtralPart.image_url
                  ("data:image/" ++ extOf (ospathJoin "static" img_path)
                    ++ ";base64," ++ b64)]] })
        | .ok t =>
          (.ok (some t),
           { loadModelCalls := ["pixtral"],
             reads := [ospathJoin "static" img_path],
             invocations := [.pixtral
               [PixtralPart.text query,
                PixtralPart.image_url
                  ("data:image/" ++ extOf (ospathJoin "static" img_path)
                    ++ ";base64," ++ b64)]] })

/-- The image paths the molmo branch successfully opens (lines 203-213):
only `images[:1]` is scanned, and a path is kept when it exists and
`Image.open(...).convert('RGB')` succeeds. -/
def molmoOpened (env : Env) (images : List String) : List String :=
  (images.take 1).filterMap (fun img_path =>
    if env.pathExists (ospathJoin "static" img_path) then
      match env.imageOpenErr (ospathJoin "static" img_path) with
      | none => some (ospathJoin "static" img_path)
      | some _ => none
    else none)

/-- The molmo branch, lines 200-252.  `model = model.half()` runs right after
`load_model`, converting the cached model in place (torch's `Module.half()`
returns `self`).  The empty-`pil_images` sentinel return sits before the
try/finally; once the try is entered, the finally closes every opened image
on both the success path and the caught-exception path. -/
def molmoBranch (env : Env) (st : ProviderState) (images : List String)
    (query : String) : Except Exn Ret × Effects × ProviderState :=
  match env.loadModelResult "molmo" with
  | .error e => (.error e, { loadModelCalls := ["molmo"] }, st)
  | .ok _ =>
    let st' : ProviderState := { st with molmoPrecision := .half }
    let eff : Effects :=
      { loadModelCalls := ["molmo"],
        existsChecks := (images.take 1).map (ospathJoin "static"),
        opens := ((images.take 1).map (ospathJoin "static")).filter env.pathExists,
        openedOk := molmoOpened env images }
    if (molmoOpened env images).isEmpty then
      (.ok (some "No images could be loaded for analysis."), eff, st')
    else
      match env.molmoGenerate (molmoOpened env images) query with
      | .error e =>
        (.ok (some ("An error occurred while processing the images: " ++ e)),
         { eff with invocations := [.molmo (molmoOpened env images) query],
                    closes := molmoOpened env images }, st')
      | .ok t =>
        (.ok (some t),
         { eff with invocations := [.molmo (molmoOpened env images) query],
                    closes := molmoOpened env images }, st')

/-- The outer try/except of `generate_response` (lines 27 and 256-258): a
value returned by the selected branch passes through unchanged, and any
exception that escapes a branch becomes the fixed generic failure string. -/
def outerBoundary (t : Except Exn Ret × Effects × ProviderState) :
    Ret × Effects × ProviderState :=
  match t with
  | (.ok r, eff, st') => (r, eff, st')
  | (.error _, eff, st') =>
    (some "An error occurred while generating the response.", eff, st')

/-- `generate_response`, responder.py lines 23-258: dispatch on
`model_choice` through the chain of equality checks, an unknown key yielding
the fixed "Invalid model selected." text, and the outer except converting
any exception that escapes a branch into the fixed generic failure string.
`session_id` is accepted and unused. -/
def generate_response (env : Env) (st : ProviderState) (images : List String)
    (query : String) (session_id : String) (resized_height resized_width : Nat)
    (model_choice : String) : Ret × Effects × ProviderState :=
  outerBoundary
    (if model_choice = "qwen" then
      ((qwenBranch env images query resized_height resized_width).1,
       (qwenBranch env images query resized_height resized_width).2, st)
    else if model_choice = "gemini" then
      ((geminiBranch env images query).1, (geminiBranch env images query).2, st)
    else if model_choice = "gpt4" then
      ((gpt4Branch env images query).1, (gpt4Branch env images query).2, st)
    else if model_choice = "llama-vision" then
      ((llamaBranch env images query).1, (llamaBranch env images query).2, st)
    else if model_choice = "pixtral" then
      ((pixtralBranch env images query).1, (pixtralBranch env images query).2, st)
    else if model_choice = "molmo" then
      molmoBranch env st images query
    else
      (.ok (some "Invalid model selected."), {}, st))

/-- A concrete environment in which every file exists and opens, every read
and every pipeline succeeds with a fixed value.  Used to instantiate the
universally quantified theorems below at concrete inputs. -/
def envW : Env where
  pathExists := fun _ => true
  imageOpenErr := fun _ => none
  fileB64 := fun _ => .ok "QUJD"
  loadModelResult := fun _ => .ok ()
  openaiClientInit := .ok ()
  qwenVision := fun _ => .ok ()
  qwenGenerate := fun _ => .ok ["qwen output"]
  geminiGenerate := fun _ => .ok "gemini output"
  gpt4Create := fun _ => .ok (some "gpt4 output")
  llamaGenerate := fun _ _ => .ok "llama output"
  pixtralChat := fun _ => .ok "pixtral output"
  molmoGenerate := fun _ _ => .ok "molmo output"

/-- A provider state whose cached molmo model still holds full-precision
weights. -/
def stW : ProviderState := { molmoPrecision := .full }

/-- `envW` with no file existing. -/
def envNoFiles : Env := { envW with pathExists := fun _ => false }

/-- `envW` with the gpt4 remote call succeeding with a null message content
(the OpenAI SDK types `message.content` as `Optional[str]`). -/
def envGpt4None : Env := { envW with gpt4Create := fun _ => .ok none }

/-- `envW` with the gpt4 remote call succeeding with an empty message
content. -/
def envGpt4Empty : Env := { envW with gpt4Create := fun _ => .ok (some "") }

/-- `envW` with the gemini remote call succeeding with an empty text
field. -/
def envGeminiEmpty : Env := { envW with geminiGenerate := fun _ => .ok "" }

/-- `envW` where every file exists but is unreadable: `Image.open` and the
binary read both raise (for example a permission error, or a directory that
passes `os.path.exists`). -/
def envReadErr : Env :=
  { envW with
      imageOpenErr := fun _ => some "read failed",
      fileB64 := fun _ => .error "read failed" }

/-! ### Structural lemmas about the outer boundary and the branches -/

/-- The outer boundary never changes the effects or the provider state. -/
theorem outerBoundary_snd (t : Except Exn Ret × Effects × ProviderState) :
    (outerBoundary t).2 = t.2 := by
  rcases t with ⟨x, eff, st'⟩
  cases x <;> rfl

/-- A branch value passes through the outer boundary unchanged. -/
theorem outerBoundary_fst_ok (t : Except Exn Ret × Effects × ProviderState)
    (r : Ret) (h : t.1 = .ok r) : (outerBoundary t).1 = r := by
  rcases t with ⟨x, eff, st'⟩
  cases x with
  | ok r' => cases h; rfl
  | error e => exact absurd h (by simp)

/-- A branch exception becomes the fixed generic failure string. -/
theorem outerBoundary_fst_error (t : Except Exn Ret × Effects × ProviderState)
    (e : Exn) (h : t.1 = .error e) :
    (outerBoundary t).1 = some "An error occurred while generating the response." := by
  rcases t with ⟨x, eff, st'⟩
  cases x with
  | ok r' => exact absurd h (by simp)
  | error e' => rfl

/-- If the branch never produces the value Python None, neither does the
whole call. -/
theorem outerBoundary_fst_ne_none (t : Except Exn Ret × Effects × ProviderState)
    (h : t.1 ≠ .ok none) : (outerBoundary t).1 ≠ none := by
  rcases t with ⟨x, eff, st'⟩
  cases x with
  | ok r =>
    cases r with
    | none => exact absurd rfl h
    | some s => simp [outerBoundary]
  | error e => simp [outerBoundary]

/-- The qwen branch never produces the value Python None. -/
theorem qwenBranch_ne_ok_none (env : Env) (images : List String)
    (query : String) (rh rw : Nat) :
    (qwenBranch env images query rh rw).1 ≠ Except.ok none := by
  unfold qwenBranch
  repeat' split
  all_goals simp

/-- The gemini branch never produces the value Python None. -/
theorem geminiBranch_ne_ok_none (env : Env) (images : List String)
    (query : String) :
    (geminiBranch env images query).1 ≠ Except.ok none := by
  unfold geminiBranch
  repeat' split
  all_goals simp

/-- The llama-vision branch never produces the value Python None. -/
theorem llamaBranch_ne_ok_none (env : Env) (images : List String)
    (query : String) :
    (llamaBranch env images query).1 ≠ Except.ok none := by
  unfold llamaBranch
  repeat' split
  all_goals simp

/-- The pixtral branch never produces the value Python None. -/
theorem pixtralBranch_ne_ok_none (env : Env) (images : List String)
    (query : String) :
    (pixtralBranch env images query).1 ≠ Except.ok none := by
  unfold pixtralBranch
  repeat' split
  all_goals simp

/-- The molmo branch never produces the value Python None. -/
theorem molmoBranch_ne_ok_none (env : Env) (st : ProviderState)
    (images : List String) (query : String) :
    (molmoBranch env st images query).1 ≠ Except.ok none := by
  unfold molmoBranch
  repeat' split
  all_goals simp

/-- Dispatch reduction: the "qwen" key selects the qwen branch. -/
theorem generate_response_qwen (env : Env) (st : ProviderState)
    (images : List String) (query sid : String) (rh rw : Nat) :
    generate_response env st images query sid rh rw "qwen" =
      outerBoundary ((qwenBranch env images query rh rw).1,
        (qwenBranch env images query rh rw).2, st) := by
  simp [generate_response]

/-- Dispatch reduction: the "gemini" key selects the gemini branch. -/
theorem generate_response_gemini (env : Env) (st : ProviderState)
    (images : List String) (query sid : String) (rh rw : Nat) :
    generate_response env st images query sid rh rw "gemini" =
      outerBoundary ((geminiBranch env images query).1,
        (geminiBranch env images query).2, st) := by
  simp [generate_response]

/-- Dispatch reduction: the "gpt4" key selects the gpt4 branch. -/
theorem generate_response_gpt4 (env : Env) (st : ProviderState)
    (images : List String) (query sid : String) (rh rw : Nat) :
    generate_response env st images query sid rh rw "gpt4" =
      outerBoundary ((gpt4Branch env images query).1,
        (gpt4Branch env images query).2, st) := by
  simp [generate_response]

/-- Dispatch reduction: the "llama-vision" key selects the llama branch. -/
theorem generate_response_llama (env : Env) (st : ProviderState)
    (images : List String) (query sid : String) (rh rw : Nat) :
    generate_response env st images query sid rh rw "llama-vision" =
      outerBoundary ((llamaBranch env images query).1,
        (llamaBranch env images query).2, st) := by
  simp [generate_response]

/-- Dispatch reduction: the "pixtral" key selects the pixtral branch. -/
theorem generate_response_pixtral (env : Env) (st : ProviderState)
    (images : List String) (query sid : String) (rh rw : Nat) :
    generate_response env st images query sid rh rw "pixtral" =
      outerBoundary ((pixtralBranch env images query).1,
        (pixtralBranch env images query).2, st) := by
  simp [generate_response]

/-- Dispatch reduction: the "molmo" key selects the molmo branch. -/
theorem generate_response_molmo (env : Env) (st : ProviderState)
    (images : List String) (query sid : String) (rh rw : Nat) :
    generate_response env st images query sid rh rw "molmo" =
      outerBoundary (molmoBranch env st images query) := by
  simp [generate_response]

/-- Every inference invocation the qwen branch records carries the messages
content built by `qwenContent`, i.e. with the rounded hints. -/
theorem qwenBranch_invocations (env : Env) (images : List String)
    (query : String) (rh rw : Nat) :
    ∀ inv ∈ (qwenBranch env images query rh rw).2.invocations,
      inv = Invocation.qwen (qwenContent images query rh rw) := by
  unfold qwenBranch
  repeat' split
  all_goals simp

/-- The llama-vision branch ignores everything after the first identifier:
its outcome and effects on `a :: rest` coincide with those on `[a]`. -/
theorem llamaBranch_first_only (env : Env) (a : String) (rest : List String)
    (query : String) :
    llamaBranch env (a :: rest) query = llamaBranch env [a] query := rfl

/-- The llama-vision branch on a nonempty list opens at most the first
joined path, checks no existence, reads no file, and every invocation it
records carries only the first joined path. -/
theorem llamaBranch_effects (env : Env) (a : String) (rest : List String)
    (query : String) :
    (llamaBranch env (a :: rest) query).2.opens ⊆ [ospathJoin "static" a] ∧
    (llamaBranch env (a :: rest) query).2.existsChecks = [] ∧
    (llamaBranch env (a :: rest) query).2.reads = [] ∧
    ∀ inv ∈ (llamaBranch env (a :: rest) query).2.invocations,
      inv = Invocation.llama (ospathJoin "static" a) query := by
  unfold llamaBranch
  repeat' split
  all_goals simp_all

/-- On the molmo branch, the closed handles are exactly the successfully
opened handles, on every path through the branch. -/
theorem molmoBranch_closes_openedOk (env : Env) (st : ProviderState)
    (images : List String) (query : String) :
    (molmoBranch env st images query).2.1.closes =
      (molmoBranch env st images query).2.1.openedOk := by
  unfold molmoBranch
  repeat' split
  all_goals simp_all [List.isEmpty_iff]

/-- Dispatch reduction: a key outside the backend set reaches the else
branch. -/
theorem generate_response_unknown (env : Env) (st : ProviderState)
    (images : List String) (query sid : String) (rh rw : Nat) (mc : String)
    (h1 : mc ≠ "qwen") (h2 : mc ≠ "gemini") (h3 : mc ≠ "gpt4")
    (h4 : mc ≠ "llama-vision") (h5 : mc ≠ "pixtral") (h6 : mc ≠ "molmo") :
    generate_response env st images query sid rh rw mc =
      (some "Invalid model selected.", {}, st) := by
  simp [generate_response, outerBoundary, h1, h2, h3, h4, h5, h6]

/-- When no identifier resolves to an existing file whose image opens, the
gemini content list is just the query text (missing files are skipped by the
existence check, unreadable ones by the per-image except). -/
theorem geminiContent_unresolved (env : Env) (images : List String)
    (query : String)
    (h : ∀ img ∈ images, env.pathExists (ospathJoin "static" img) = false ∨
      env.imageOpenErr (ospathJoin "static" img) ≠ none) :
    geminiContent env images query = [GeminiPart.text query] := by
  unfold geminiContent
  have : images.filterMap (fun img_path =>
      if env.pathExists (ospathJoin "static" img_path) then
        match env.imageOpenErr (ospathJoin "static" img_path) with
        | none => some (GeminiPart.image (ospathJoin "static" img_path))
        | some _ => none
      else none) = [] := by
    rw [List.filterMap_eq_nil_iff]
    intro a ha
    rcases h a ha with hp | ho
    · simp [hp]
    · rcases Option.ne_none_iff_exists'.mp ho with ⟨e, he⟩
      simp [he]
  rw [this]

/-- When no identifier resolves to an existing file, the gpt4 loop produces
no image part, checks every identifier and reads nothing. -/
theorem gpt4Loop_unresolved (env : Env) (images : List String)
    (h : ∀ img ∈ images, env.pathExists (ospathJoin "static" img) = false) :
    gpt4Loop env images = (.ok [], images.map (ospathJoin "static"), []) := by
  induction images with
  | nil => rfl
  | cons a as ih =>
    unfold gpt4Loop
    rw [h a (List.mem_cons_self a as)]
    rw [ih (fun img hm => h img (List.mem_cons_of_mem a hm))]
    simp

/-- When no identifier resolves to an existing file whose image opens, the
molmo branch opens nothing (its guarded loop skips missing and unreadable
files alike). -/
theorem molmoOpened_unresolved (env : Env) (images : List String)
    (h : ∀ img ∈ images, env.pathExists (ospathJoin "static" img) = false ∨
      env.imageOpenErr (ospathJoin "static" img) ≠ none) :
    molmoOpened env images = [] := by
  unfold molmoOpened
  rw [List.filterMap_eq_nil_iff]
  intro a ha
  rcases h a (List.take_subset 1 images ha) with hp | ho
  · simp [hp]
  · rcases Option.ne_none_iff_exists'.mp ho with ⟨e, he⟩
    simp [he]

/-- If every identifier before `bad` is missing, `bad` exists, and its
binary read raises, the gpt4 loop aborts with that exception (`encode_image`
at line 116 is not guarded per-image). -/
theorem gpt4Loop_read_error (env : Env) (pre : List String) (bad : String)
    (post : List String) (e : Exn)
    (hbad : env.pathExists (ospathJoin "static" bad) = true)
    (herr : env.fileB64 (ospathJoin "static" bad) = Except.error e) :
    (∀ img ∈ pre, env.pathExists (ospathJoin "static" img) = false) →
    (gpt4Loop env (pre ++ bad :: post)).1 = .error e := by
  induction pre with
  | nil =>
    intro _
    unfold gpt4Loop
    simp [hbad, herr]
  | cons a as ih =>
    intro hpre
    have ha := hpre a (List.mem_cons_self a as)
    have ih' := ih (fun img hm => hpre img (List.mem_cons_of_mem a hm))
    unfold gpt4Loop
    rcases hL : gpt4Loop env (as ++ bad :: post) with ⟨res, exs, rds⟩
    rw [hL] at ih'
    simp only [List.cons_append, ha, Bool.false_eq_true, if_false, hL]
    exact ih'

/-- The gemini branch on a fully-unresolvable image list (every identifier
missing or unreadable): sentinel, no invocation. -/
theorem geminiBranch_unresolved (env : Env) (images : List String)
    (query : String) (hl : env.loadModelResult "gemini" = Except.ok ())
    (h : ∀ img ∈ images, env.pathExists (ospathJoin "static" img) = false ∨
      env.imageOpenErr (ospathJoin "static" img) ≠ none) :
    (geminiBranch env images query).1 =
      .ok (some "No images could be loaded for analysis.") ∧
    (geminiBranch env images query).2.invocations = [] := by
  unfold geminiBranch
  simp [hl, geminiContent_unresolved env images query h]

/-- The gpt4 branch on a fully-unresolvable image list: sentinel, no
invocation. -/
theorem gpt4Branch_unresolved (env : Env) (images : List String)
    (query : String) (hcl : env.openaiClientInit = Except.ok ())
    (h : ∀ img ∈ images, env.pathExists (ospathJoin "static" img) = false) :
    (gpt4Branch env images query).1 =
      .ok (some "No images could be loaded for analysis.") ∧
    (gpt4Branch env images query).2.invocations = [] := by
  unfold gpt4Branch
  simp [hcl, gpt4Loop_unresolved env images h]

/-- The gpt4 branch when some existing identifier's read raises after only
missing identifiers: the inner except converts the raise into the
descriptive error string — not the sentinel — and no invocation happens. -/
theorem gpt4Branch_read_error (env : Env) (images : List String)
    (query : String) (pre : List String) (bad : String) (post : List String)
    (e : Exn) (hcl : env.openaiClientInit = Except.ok ())
    (hsplit : images = pre ++ bad :: post)
    (hpre : ∀ img ∈ pre, env.pathExists (ospathJoin "static" img) = false)
    (hbad : env.pathExists (ospathJoin "static" bad) = true)
    (herr : env.fileB64 (ospathJoin "static" bad) = Except.error e) :
    (gpt4Branch env images query).1 =
      .ok (some ("An error occurred while processing the images: " ++ e)) ∧
    (gpt4Branch env images query).2.invocations = [] := by
  subst hsplit
  have hloop := gpt4Loop_read_error env pre bad post e hbad herr hpre
  unfold gpt4Branch
  rcases hL : gpt4Loop env (pre ++ bad :: post) with ⟨res, exs, rds⟩
  rw [hL] at hloop
  simp only at hloop
  subst hloop
  simp [hcl]

/-- The molmo branch on a fully-unresolvable image list (every identifier
missing or unreadable): sentinel, no invocation. -/
theorem molmoBranch_unresolved (env : Env) (st : ProviderState)
    (images : List String) (query : String)
    (hl : env.loadModelResult "molmo" = Except.ok ())
    (h : ∀ img ∈ images, env.pathExists (ospathJoin "static" img) = false ∨
      env.imageOpenErr (ospathJoin "static" img) ≠ none) :
    (molmoBranch env st images query).1 =
      .ok (some "No images could be loaded for analysis.") ∧
    (molmoBranch env st images query).2.1.invocations = [] := by
  unfold molmoBranch
  simp [hl, molmoOpened_unresolved env images h]

/-- The provider state after the molmo branch: the cached model has been
cast to half precision exactly when `load_model` succeeded. -/
theorem molmoBranch_state (env : Env) (st : ProviderState)
    (images : List String) (query : String) :
    (molmoBranch env st images query).2.2 =
      match env.loadModelResult "molmo" with
      | .ok _ => { st with molmoPrecision := Precision.half }
      | .error _ => st := by
  unfold molmoBranch
  repeat' split
  all_goals simp_all

/-! ### Claim theorems -/

/-- Claim C3 (confirmed): for every `model_choice` outside the closed
backend set, `generate_response` returns the fixed text
"Invalid model selected." without raising and without invoking the
Model Provider lookup (`load_model`). -/
theorem c3_invalid_model_sentinel (env : Env) (st : ProviderState)
    (images : List String) (query sid : String) (rh rw : Nat) (mc : String)
    (h : mc ∉ (["qwen", "gemini", "gpt4", "llama-vision", "pixtral", "molmo"] : List String)) :
    (generate_response env st images query sid rh rw mc).1 = some "Invalid model selected." ∧
    (generate_response env st images query sid rh rw mc).2.1.loadModelCalls = [] := by
  simp only [List.mem_cons, List.not_mem_nil, or_false, not_or] at h
  obtain ⟨h1, h2, h3, h4, h5, h6⟩ := h
  simp [generate_response, outerBoundary, h1, h2, h3, h4, h5, h6]

/-- Claim C3 witness: the concrete key "other" is outside the backend set
and yields the invalid-model sentinel with no `load_model` call. -/
theorem c3_invalid_model_sentinel_witness :
    ("other" : String) ∉ (["qwen", "gemini", "gpt4", "llama-vision", "pixtral", "molmo"] : List String) ∧
    ((generate_response envW stW [] "q" "s" 280 280 "other").1 = some "Invalid model selected." ∧
     (generate_response envW stW [] "q" "s" 280 280 "other").2.1.loadModelCalls = []) :=
  ⟨by decide, c3_invalid_model_sentinel envW stW [] "q" "s" 280 280 "other" (by decide)⟩

/-- Claim C6 (confirmed): the qwen branch passes the backend the sizing
hints rounded down to the nearest multiple of 28 — every invocation it
records carries image parts tagged `(rh / 28) * 28` and `(rw / 28) * 28`;
in particular the content built for 280×280 stays at 280×280 and the one
built for 300×300 becomes 280×280. -/
theorem c6_qwen_hint_rounding (env : Env) (st : ProviderState)
    (images : List String) (query sid : String) (rh rw : Nat) :
    (∀ inv ∈ (generate_response env st images query sid rh rw "qwen").2.1.invocations,
      inv = Invocation.qwen (images.map (fun im =>
          QwenPart.image (ospathJoin "static" im) (rh / 28 * 28) (rw / 28 * 28))
        ++ [QwenPart.text query])) ∧
    qwenContent images query 280 280 =
      images.map (fun im => QwenPart.image (ospathJoin "static" im) 280 280)
        ++ [QwenPart.text query] ∧
    qwenContent images query 300 300 =
      images.map (fun im => QwenPart.image (ospathJoin "static" im) 280 280)
        ++ [QwenPart.text query] := by
  refine ⟨?_, by simp [qwenContent], by simp [qwenContent]⟩
  intro inv hinv
  rw [generate_response_qwen, outerBoundary_snd] at hinv
  exact qwenBranch_invocations env images query rh rw inv hinv

/-- Claim C7 (confirmed): with at least two images, the llama-vision branch
consumes only the first one — the whole call (result, effects and state)
coincides with the call on the first image alone, no existence check or
binary read happens, at most the first joined path is opened, and every
recorded invocation carries only the first joined path. -/
theorem c7_llama_first_image_only (env : Env) (st : ProviderState)
    (a b : String) (rest : List String) (query sid : String) (rh rw : Nat) :
    generate_response env st (a :: b :: rest) query sid rh rw "llama-vision" =
      generate_response env st [a] query sid rh rw "llama-vision" ∧
    (generate_response env st (a :: b :: rest) query sid rh rw "llama-vision").2.1.opens
      ⊆ [ospathJoin "static" a] ∧
    (generate_response env st (a :: b :: rest) query sid rh rw "llama-vision").2.1.existsChecks = [] ∧
    (generate_response env st (a :: b :: rest) query sid rh rw "llama-vision").2.1.reads = [] ∧
    ∀ inv ∈ (generate_response env st (a :: b :: rest) query sid rh rw "llama-vision").2.1.invocations,
      inv = Invocation.llama (ospathJoin "static" a) query := by
  obtain ⟨hopens, hexists, hreads, hinv⟩ := llamaBranch_effects env a (b :: rest) query
  refine ⟨?_, ?_, ?_, ?_, ?_⟩
  · rw [generate_response_llama, generate_response_llama,
      llamaBranch_first_only env a (b :: rest) query]
  · rw [generate_response_llama, outerBoundary_snd]
    exact hopens
  · rw [generate_response_llama, outerBoundary_snd]
    exact hexists
  · rw [generate_response_llama, outerBoundary_snd]
    exact hreads
  · intro inv h
    rw [generate_response_llama, outerBoundary_snd] at h
    exact hinv inv h

/-- Claim C8 (confirmed): on the molmo branch, every image handle that was
successfully opened is closed before the call returns, on every exit path —
the recorded closes coincide with the successfully opened handles whether
generation succeeded, the adapter-local except fired, or the branch exited
through the sentinel or a raise. -/
theorem c8_molmo_closes_all_opened (env : Env) (st : ProviderState)
    (images : List String) (query sid : String) (rh rw : Nat) :
    (generate_response env st images query sid rh rw "molmo").2.1.closes =
      (generate_response env st images query sid rh rw "molmo").2.1.openedOk := by
  rw [generate_response_molmo, outerBoundary_snd]
  exact molmoBranch_closes_openedOk env st images query

/-- Claim C9 (confirmed): on the llama-vision branch an empty image list
makes `image_paths[0]` raise, the outer handler catches it, and the call
returns the generic failure string, not the no-images sentinel. -/
theorem c9_llama_empty_list (env : Env) (st : ProviderState)
    (query sid : String) (rh rw : Nat) :
    (generate_response env st [] query sid rh rw "llama-vision").1 =
      some "An error occurred while generating the response." ∧
    (generate_response env st [] query sid rh rw "llama-vision").1 ≠
      some "No images could be loaded for analysis." := by
  have hmain : (generate_response env st [] query sid rh rw "llama-vision").1 =
      some "An error occurred while generating the response." := by
    cases h : env.loadModelResult "llama-vision" with
    | error e => simp [generate_response, outerBoundary, llamaBranch, h]
    | ok u => simp [generate_response, outerBoundary, llamaBranch, h]
  exact ⟨hmain, by rw [hmain]; simp⟩

/-- Claim C1 counterexample: on the gpt4 branch with one resolvable image,
when the remote call succeeds but delivers a null message content (the
OpenAI SDK types `message.content` as `Optional[str]`), `generate_response`
returns Python None — not a non-null string — so the claim fails as
stated. -/
theorem c1_counterexample :
    (generate_response envGpt4None stW ["a.png"] "q" "s" 280 280 "gpt4").1 =
      none := by rfl

/-- Claim C1 (amended): exceptions raised inside an adapter branch are never
propagated — the inner result passes the outer boundary, which converts any
escaped exception into the fixed generic failure string — and on every
branch other than gpt4 the returned value is a non-null string; the gpt4
branch forwards the remote message content as-is, which may be null. -/
theorem c1_no_raise_nonnull_off_gpt4 (env : Env) (st : ProviderState)
    (images : List String) (query sid : String) (rh rw : Nat) (mc : String)
    (h : mc ≠ "gpt4") :
    ∃ s : String, (generate_response env st images query sid rh rw mc).1 = some s := by
  have hne : (generate_response env st images query sid rh rw mc).1 ≠ none := by
    by_cases h1 : mc = "qwen"
    · subst h1
      rw [generate_response_qwen]
      exact outerBoundary_fst_ne_none _ (qwenBranch_ne_ok_none env images query rh rw)
    by_cases h2 : mc = "gemini"
    · subst h2
      rw [generate_response_gemini]
      exact outerBoundary_fst_ne_none _ (geminiBranch_ne_ok_none env images query)
    by_cases h4 : mc = "llama-vision"
    · subst h4
      rw [generate_response_llama]
      exact outerBoundary_fst_ne_none _ (llamaBranch_ne_ok_none env images query)
    by_cases h5 : mc = "pixtral"
    · subst h5
      rw [generate_response_pixtral]
      exact outerBoundary_fst_ne_none _ (pixtralBranch_ne_ok_none env images query)
    by_cases h6 : mc = "molmo"
    · subst h6
      rw [generate_response_molmo]
      exact outerBoundary_fst_ne_none _ (molmoBranch_ne_ok_none env st images query)
    rw [generate_response_unknown env st images query sid rh rw mc h1 h2 h h4 h5 h6]
    simp
  cases hval : (generate_response env st images query sid rh rw mc).1 with
  | none => exact absurd hval hne
  | some s => exact ⟨s, rfl⟩

/-- Claim C1 (amended) witness: a concrete non-gpt4 call returning a
string. -/
theorem c1_no_raise_nonnull_off_gpt4_witness :
    ("qwen" : String) ≠ "gpt4" ∧
    ∃ s : String, (generate_response envW stW ["a.png"] "q" "s" 280 280 "qwen").1 = some s :=
  ⟨by decide, c1_no_raise_nonnull_off_gpt4 envW stW ["a.png"] "q" "s" 280 280 "qwen" (by decide)⟩

/-- Claim C2 counterexample: two concrete inputs refute the claim as
stated.  The llama-vision branch with an empty image list raises at the
empty-list indexing and returns the generic failure string, not the
sentinel.  And the gpt4 branch with a single identifier that exists but is
not readable — a fully-unresolvable list in the claim's sense — aborts in
the unguarded `encode_image`, whose exception the inner except converts into
the descriptive error string, again not the sentinel. -/
theorem c2_counterexample :
    ((generate_response envW stW [] "q" "s" 280 280 "llama-vision").1 =
       some "An error occurred while generating the response." ∧
     (generate_response envW stW [] "q" "s" 280 280 "llama-vision").1 ≠
       some "No images could be loaded for analysis.") ∧
    (envReadErr.pathExists (ospathJoin "static" "locked.png") = true ∧
     envReadErr.fileB64 (ospathJoin "static" "locked.png") = Except.error "read failed" ∧
     (generate_response envReadErr stW ["locked.png"] "q" "s" 280 280 "gpt4").1 =
       some "An error occurred while processing the images: read failed" ∧
     (generate_response envReadErr stW ["locked.png"] "q" "s" 280 280 "gpt4").1 ≠
       some "No images could be loaded for analysis.") :=
  ⟨⟨by rfl, by decide⟩, by rfl, by rfl, by rfl, by decide⟩

/-- Claim C2 (amended): given the handle/client initialization succeeds, an
image list that is empty or none of whose identifiers resolves to an
existing readable file behaves as follows.  The gemini and molmo branches
return the fixed "No images could be loaded for analysis." sentinel with no
inference invocation (their guarded loops skip missing and unreadable files
alike).  The gpt4 branch returns that sentinel when every identifier is
missing; when an identifier exists but its read raises, the branch instead
returns the adapter-local error string — still without any inference
invocation.  The qwen branch never returns the sentinel (it invokes the
backend, text-only on an empty list), and the llama-vision branch raises to
the outer boundary and returns the generic failure string. -/
theorem c2_no_images_sentinel (env : Env) (st : ProviderState)
    (images : List String) (query sid : String) (rh rw : Nat)
    (hready : env.loadModelResult "gemini" = Except.ok () ∧
      env.loadModelResult "molmo" = Except.ok () ∧
      env.openaiClientInit = Except.ok ()) :
    ((∀ img ∈ images, env.pathExists (ospathJoin "static" img) = false ∨
        env.imageOpenErr (ospathJoin "static" img) ≠ none) →
      ∀ mc ∈ (["gemini", "molmo"] : List String),
        (generate_response env st images query sid rh rw mc).1 =
          some "No images could be loaded for analysis." ∧
        (generate_response env st images query sid rh rw mc).2.1.invocations = []) ∧
    ((∀ img ∈ images, env.pathExists (ospathJoin "static" img) = false) →
      (generate_response env st images query sid rh rw "gpt4").1 =
        some "No images could be loaded for analysis." ∧
      (generate_response env st images query sid rh rw "gpt4").2.1.invocations = []) ∧
    (∀ pre bad post e, images = pre ++ bad :: post →
      (∀ img ∈ pre, env.pathExists (ospathJoin "static" img) = false) →
      env.pathExists (ospathJoin "static" bad) = true →
      env.fileB64 (ospathJoin "static" bad) = Except.error e →
      (generate_response env st images query sid rh rw "gpt4").1 =
        some ("An error occurred while processing the images: " ++ e) ∧
      (generate_response env st images query sid rh rw "gpt4").2.1.invocations = []) := by
  obtain ⟨hl1, hl2, hl3⟩ := hready
  refine ⟨?_, ?_, ?_⟩
  · intro himg mc hmc
    simp only [List.mem_cons, List.not_mem_nil, or_false] at hmc
    rcases hmc with hmc | hmc
    · subst hmc
      obtain ⟨hres, hinv⟩ := geminiBranch_unresolved env images query hl1 himg
      rw [generate_response_gemini]
      exact ⟨outerBoundary_fst_ok _ _ hres, by rw [outerBoundary_snd]; exact hinv⟩
    · subst hmc
      obtain ⟨hres, hinv⟩ := molmoBranch_unresolved env st images query hl2 himg
      rw [generate_response_molmo]
      exact ⟨outerBoundary_fst_ok _ _ hres, by rw [outerBoundary_snd]; exact hinv⟩
  · intro himg
    obtain ⟨hres, hinv⟩ := gpt4Branch_unresolved env images query hl3 himg
    rw [generate_response_gpt4]
    exact ⟨outerBoundary_fst_ok _ _ hres, by rw [outerBoundary_snd]; exact hinv⟩
  · intro pre bad post e hsplit hpre hbad herr
    obtain ⟨hres, hinv⟩ :=
      gpt4Branch_read_error env images query pre bad post e hl3 hsplit hpre hbad herr
    rw [generate_response_gpt4]
    exact ⟨outerBoundary_fst_ok _ _ hres, by rw [outerBoundary_snd]; exact hinv⟩

/-- Claim C2 (amended) witness: all three parts exercised concretely — a
gemini call and a gpt4 call on a single missing identifier both return the
sentinel with no invocation; a molmo call on an identifier that exists but
does not open returns the sentinel with no invocation; and a gpt4 call on an
identifier that exists but whose read raises returns the adapter-local error
string with no invocation. -/
theorem c2_no_images_sentinel_witness :
    (envNoFiles.loadModelResult "gemini" = Except.ok () ∧
      envNoFiles.loadModelResult "molmo" = Except.ok () ∧
      envNoFiles.openaiClientInit = Except.ok ()) ∧
    ((generate_response envNoFiles stW ["missing.png"] "q" "s" 280 280 "gemini").1 =
       some "No images could be loaded for analysis." ∧
     (generate_response envNoFiles stW ["missing.png"] "q" "s" 280 280 "gemini").2.1.invocations = []) ∧
    ((generate_response envNoFiles stW ["missing.png"] "q" "s" 280 280 "gpt4").1 =
       some "No images could be loaded for analysis." ∧
     (generate_response envNoFiles stW ["missing.png"] "q" "s" 280 280 "gpt4").2.1.invocations = []) ∧
    (envReadErr.loadModelResult "gemini" = Except.ok () ∧
      envReadErr.loadModelResult "molmo" = Except.ok () ∧
      envReadErr.openaiClientInit = Except.ok ()) ∧
    ((generate_response envReadErr stW ["locked.png"] "q" "s" 280 280 "molmo").1 =
       some "No images could be loaded for analysis." ∧
     (generate_response envReadErr stW ["locked.png"] "q" "s" 280 280 "molmo").2.1.invocations = []) ∧
    ((generate_response envReadErr stW ["locked.png"] "q" "s" 280 280 "gpt4").1 =
       some ("An error occurred while processing the images: " ++ "read failed") ∧
     (generate_response envReadErr stW ["locked.png"] "q" "s" 280 280 "gpt4").2.1.invocations = []) :=
  ⟨⟨rfl, rfl, rfl⟩,
    (c2_no_images_sentinel envNoFiles stW ["missing.png"] "q" "s" 280 280
        ⟨rfl, rfl, rfl⟩).1 (by decide) "gemini" (by decide),
    (c2_no_images_sentinel envNoFiles stW ["missing.png"] "q" "s" 280 280
        ⟨rfl, rfl, rfl⟩).2.1 (by decide),
    ⟨rfl, rfl, rfl⟩,
    (c2_no_images_sentinel envReadErr stW ["locked.png"] "q" "s" 280 280
        ⟨rfl, rfl, rfl⟩).1 (by decide) "molmo" (by decide),
    (c2_no_images_sentinel envReadErr stW ["locked.png"] "q" "s" 280 280
        ⟨rfl, rfl, rfl⟩).2.2 [] "locked.png" [] "read failed" rfl (by decide)
      (by decide) rfl⟩

/-- Claim C4 counterexample: a molmo call mutates the borrowed handle — the
provider's cached model is converted from full to half precision (torch's
`Module.half()` casts in place and returns `self`), so the state after the
call differs from the state before it. -/
theorem c4_counterexample :
    (generate_response envW stW [] "q" "s" 280 280 "molmo").2.2 ≠ stW := by
  decide

/-- Claim C4 (amended): `generate_response` never mutates the provider's
cached handles on any branch other than molmo; the molmo branch, whenever
its `load_model` lookup succeeds, casts the cached model to half precision
in place and mutates nothing else. -/
theorem c4_handle_state (env : Env) (st : ProviderState)
    (images : List String) (query sid : String) (rh rw : Nat) (mc : String) :
    (generate_response env st images query sid rh rw mc).2.2 =
      if mc = "molmo" then
        match env.loadModelResult "molmo" with
        | .ok _ => { st with molmoPrecision := Precision.half }
        | .error _ => st
      else st := by
  by_cases h6 : mc = "molmo"
  · subst h6
    rw [generate_response_molmo, outerBoundary_snd, molmoBranch_state]
    simp
  rw [if_neg h6]
  by_cases h1 : mc = "qwen"
  · subst h1; rw [generate_response_qwen, outerBoundary_snd]
  by_cases h2 : mc = "gemini"
  · subst h2; rw [generate_response_gemini, outerBoundary_snd]
  by_cases h3 : mc = "gpt4"
  · subst h3; rw [generate_response_gpt4, outerBoundary_snd]
  by_cases h4 : mc = "llama-vision"
  · subst h4; rw [generate_response_llama, outerBoundary_snd]
  by_cases h5 : mc = "pixtral"
  · subst h5; rw [generate_response_pixtral, outerBoundary_snd]
  rw [generate_response_unknown env st images query sid rh rw mc h1 h2 h3 h4 h5 h6]

/-- Claim C5 counterexample: when the gpt4 remote call succeeds with an
empty message content, the branch returns the empty string itself — there is
no "did not generate any text response" sentinel on the gpt4 branch —
refuting the claim's "holds for both the gemini branch and the gpt4
branch". -/
theorem c5_counterexample :
    (generate_response envGpt4Empty stW ["a.png"] "q" "s" 280 280 "gpt4").1 =
      some "" := by rfl

/-- Claim C5 (amended): the empty-text sentinel exists only on the gemini
branch — when the gemini remote call succeeds with an empty text field (and
at least one image resolved), the call returns
"The Gemini model did not generate any text response."; the gpt4 branch
returns the remote message content unchanged. -/
theorem c5_gemini_empty_text_sentinel (env : Env) (st : ProviderState)
    (images : List String) (query sid : String) (rh rw : Nat)
    (hl : env.loadModelResult "gemini" = Except.ok ())
    (hlen : (geminiContent env images query).length ≠ 1)
    (hg : env.geminiGenerate (geminiContent env images query) = Except.ok "") :
    (generate_response env st images query sid rh rw "gemini").1 =
      some "The Gemini model did not generate any text response." := by
  rw [generate_response_gemini]
  refine outerBoundary_fst_ok _ _ ?_
  show (geminiBranch env images query).1 = _
  unfold geminiBranch
  simp [hl, hlen, hg]

/-- Claim C5 (amended) witness: a concrete gemini call with one resolvable
image and an empty remote text field returns the gemini empty-text
sentinel. -/
theorem c5_gemini_empty_text_sentinel_witness :
    envGeminiEmpty.loadModelResult "gemini" = Except.ok () ∧
    (geminiContent envGeminiEmpty ["a.png"] "q").length ≠ 1 ∧
    envGeminiEmpty.geminiGenerate (geminiContent envGeminiEmpty ["a.png"] "q") =
      Except.ok "" ∧
    (generate_response envGeminiEmpty stW ["a.png"] "q" "s" 280 280 "gemini").1 =
      some "The Gemini model did not generate any text response." :=
  ⟨rfl, by decide, rfl,
    c5_gemini_empty_text_sentinel envGeminiEmpty stW ["a.png"] "q" "s" 280 280
      rfl (by decide) rfl⟩

/-- Claim C10 (confirmed): the qwen branch with an empty image list returns
no sentinel — it invokes the backend once with a text-only content list (the
empty image-content list followed by the text part) and returns the first
decoded output. -/
theorem c10_qwen_empty_list_text_only (env : Env) (st : ProviderState)
    (query sid : String) (rh rw : Nat) (out : String) (rest : List String)
    (hlm : env.loadModelResult "qwen" = Except.ok ())
    (hv : env.qwenVision [QwenPart.text query] = Except.ok ())
    (hg : env.qwenGenerate [QwenPart.text query] = Except.ok (out :: rest)) :
    (generate_response env st [] query sid rh rw "qwen").1 = some out ∧
    (generate_response env st [] query sid rh rw "qwen").2.1.invocations =
      [Invocation.qwen [QwenPart.text query]] := by
  have hc : qwenContent [] query rh rw = [QwenPart.text query] := rfl
  have hb : (qwenBranch env [] query rh rw).1 = .ok (some out) ∧
      (qwenBranch env [] query rh rw).2.invocations =
        [Invocation.qwen [QwenPart.text query]] := by
    unfold qwenBranch
    simp [hc, hlm, hv, hg]
  rw [generate_response_qwen]
  exact ⟨outerBoundary_fst_ok _ _ hb.1, by rw [outerBoundary_snd]; exact hb.2⟩

/-- Claim C10 witness: a concrete qwen call with no images returns the
decoded output after one text-only invocation. -/
theorem c10_qwen_empty_list_text_only_witness :
    envW.loadModelResult "qwen" = Except.ok () ∧
    envW.qwenVision [QwenPart.text "q"] = Except.ok () ∧
    envW.qwenGenerate [QwenPart.text "q"] = Except.ok ("qwen output" :: []) ∧
    ((generate_response envW stW [] "q" "s" 280 280 "qwen").1 = some "qwen output" ∧
     (generate_response envW stW [] "q" "s" 280 280 "qwen").2.1.invocations =
       [Invocation.qwen [QwenPart.text "q"]]) :=
  ⟨rfl, rfl, rfl,
    c10_qwen_empty_list_text_only envW stW "q" "s" 280 280 "qwen output" []
      rfl rfl rfl⟩

end VisionRAG
